import Mathlib

/-!
Verification of the monthly weather forecaster (`src/main.py`).

The development shallowly embeds the core of the program — the cached
function `fetch_monthly_data(city, year, month, api_key)` and the button
handler that consumes its result — as executable Lean definitions, and
proves the frozen claims about it.

Modelling conventions:
* JSON payloads are an inductive `Json`; Python `dict` access is keyed
  lookup on association lists.
* Python `datetime` is modelled by `PyDate` on the proleptic Gregorian
  calendar; the constructor's `ValueError` outside years 1..9999 becomes
  an `Option` (`pyDatetime`).
* Exceptions raised inside the function's `try` block become values of
  `Exc`; the two `except` handlers become the `ForecastResult.failure`
  constructor carrying the exact message handed to `st.error`.
* Numbers in payloads are modelled as rationals (`Rat`); the fetch never
  computes with them, it only carries them through.
-/

set_option autoImplicit false

namespace Forecasting

/-- JSON values, as produced by `response.json()`. Objects are association
lists of string keys (Python dicts from JSON have unique keys). -/
inductive Json where
  | null
  | boolean (b : Bool)
  | num (q : Rat)
  | str (s : String)
  | arr (xs : List Json)
  | obj (fields : List (String × Json))

/-- Python `d.get(k)` / `k in d` on a dict: keyed lookup. On a non-dict
value every lookup yields `none` (in Python the corresponding subscript or
attribute access raises; the callers below turn `none` into the raised
exception). -/
def Json.get : Json → String → Option Json
  | .obj fields, k => fields.lookup k
  | _, _ => none

/-- A calendar date as carried by Python's `datetime` (proleptic
Gregorian). -/
structure PyDate where
  year : Int
  month : Nat
  day : Nat
deriving DecidableEq

/-- Python's leap-year rule (`year % 4 == 0 and (year % 100 != 0 or
year % 400 == 0)`), as used internally by `datetime`. -/
def isLeapYear (y : Int) : Bool :=
  y % 4 == 0 && (y % 100 != 0 || y % 400 == 0)

/-- Number of days in a month of the proleptic Gregorian calendar, as
validated by Python's `datetime`. Only meaningful for `m` in 1..12. -/
def daysInMonth (y : Int) (m : Nat) : Nat :=
  if m = 2 then (if isLeapYear y then 29 else 28)
  else if m = 4 ∨ m = 6 ∨ m = 9 ∨ m = 11 then 30
  else 31

/-- `datetime(year, month, day)`: Python raises `ValueError` when the year
is outside `MINYEAR..MAXYEAR` = 1..9999 or the month/day are invalid;
modelled as `none`. -/
def pyDatetime (y : Int) (m d : Nat) : Option PyDate :=
  if 1 ≤ y ∧ y ≤ 9999 ∧ 1 ≤ m ∧ m ≤ 12 ∧ 1 ≤ d ∧ d ≤ daysInMonth y m then
    some ⟨y, m, d⟩
  else
    none

/-- `dt - timedelta(days=1)` on the Gregorian calendar. The source only
applies it to the first day of a month in 2..12, so the year-borrow branch
is never reached there (in Python, subtracting below `datetime.min` would
raise `OverflowError`, which that call site cannot trigger). -/
def subOneDay (d : PyDate) : PyDate :=
  if 1 < d.day then ⟨d.year, d.month, d.day - 1⟩
  else if 1 < d.month then ⟨d.year, d.month - 1, daysInMonth d.year (d.month - 1)⟩
  else ⟨d.year - 1, 12, 31⟩

/-- Two-digit zero padding, as `{month:02d}` and `strftime` field padding
produce for values below 100. -/
def pad2 (n : Nat) : String :=
  if n < 10 then "0" ++ toString n else toString n

/-- `strftime("%Y-%m-%d")`: year as printed by `str` (4 digits for the
years 1000..9999 that the claims exercise), zero-padded month and day. -/
def fmtDate (d : PyDate) : String :=
  toString d.year ++ "-" ++ pad2 d.month ++ "-" ++ pad2 d.day

/-- Lines 36-41 of `main.py`: the range resolver.
`start_date = f"{year}-{month:02d}-01"`; for December the end is the
literal `f"{year}-12-31"`, otherwise `datetime(year, month + 1, 1) -
timedelta(days=1)` formatted `%Y-%m-%d`. The `datetime` call raises
`ValueError` (here: `none`) for years outside 1..9999; this code runs
before the `try` block, so the exception escapes the function. -/
def resolveRange (year : Int) (month : Nat) : Option (String × String) :=
  let startDate := toString year ++ "-" ++ pad2 month ++ "-01"
  if month = 12 then
    some (startDate, toString year ++ "-12-31")
  else
    match pyDatetime year (month + 1) 1 with
    | none => none
    | some d => some (startDate, fmtDate (subOneDay d))

/-- Exceptions that can be raised inside the `try` block of
`fetch_monthly_data` and are formatted into the `st.error` message by the
handlers. `keyError k` stands for the `KeyError` raised by `day[k]` /
`df[k]` on a missing key (a subscript on a non-dict raises `TypeError`
instead; the two are conflated here since no claim depends on that
distinction). `str` is Python's `str(e)` as interpolated by the f-string
`f"Unexpected Error: {e}"`. -/
inductive Exc where
  | keyError (k : String)
  | valueError (msg : String)
  | typeError (msg : String)
  | parseError (msg : String)

/-- The apostrophe character, used by `str` on a `KeyError`. -/
def squote : String := String.singleton (Char.ofNat 39)

/-- `str(e)` for an exception `e`: `KeyError` prints its key in quotes,
the others print their message. -/
def Exc.str : Exc → String
  | .keyError k => squote ++ k ++ squote
  | .valueError m => m
  | .typeError m => m
  | .parseError m => m

/-- One element of the `days_data` list (lines 62-69): the per-day dict
before the `Date` column is converted, with the raw JSON values of the
six requested elements. `precip` already carries the
`day.get("precip", 0)` default. -/
structure RawRow where
  date : Json
  tempmax : Json
  tempmin : Json
  temp : Json
  conditions : Json
  precip : Json

/-- A row of the returned table after `df["Date"] =
pd.to_datetime(df["Date"])`: the date parsed to a calendar date, the other
five values carried through unchanged. -/
structure Row where
  date : PyDate
  tempmax : Json
  tempmin : Json
  temp : Json
  conditions : Json
  precip : Json

/-- The result of one (uncached) call of `fetch_monthly_data` past range
resolution: either the table, or `None` together with the message the
function passed to `st.error`. -/
inductive ForecastResult where
  | success (rows : List Row)
  | failure (msg : String)

/-- Lines 62-69: build one `days_data` entry from a provider entry.
`day["datetime"]`, `day["tempmax"]`, `day["tempmin"]`, `day["temp"]` and
`day["conditions"]` raise `KeyError` when absent (evaluated in this
order); `day.get("precip", 0)` substitutes `0` only when the key is
absent — a present `null` is carried through. -/
def buildRow (day : Json) : Except Exc RawRow :=
  match day.get ("datetime") with
  | none => .error (.keyError ("datetime"))
  | some dt =>
    match day.get ("tempmax") with
    | none => .error (.keyError ("tempmax"))
    | some tmax =>
      match day.get ("tempmin") with
      | none => .error (.keyError ("tempmin"))
      | some tmin =>
        match day.get ("temp") with
        | none => .error (.keyError ("temp"))
        | some t =>
          match day.get ("conditions") with
          | none => .error (.keyError ("conditions"))
          | some cond =>
            .ok ⟨dt, tmax, tmin, t, cond, (day.get ("precip")).getD (.num 0)⟩

/-- The `for day in data["days"]` loop: entries processed in order, the
first raised exception aborts the loop and discards everything built so
far. -/
def buildRows : List Json → Except Exc (List RawRow)
  | [] => .ok []
  | d :: ds =>
    match buildRow d with
    | .error e => .error e
    | .ok r =>
      match buildRows ds with
      | .error e => .error e
      | .ok rs => .ok (r :: rs)

/-- Value of a decimal digit character. -/
def digitVal (c : Char) : Nat := c.toNat - 48

/-- Parsing of the provider's `YYYY-MM-DD` date strings, as
`pd.to_datetime` does on the `Date` column (the provider's `datetime`
element always has this exact ten-character shape; other formats pandas
would accept are out of scope and conflated into a parse failure). The
resulting date is validated like a `datetime` (month 1..12, day within
the month, year at least 1). -/
def parseYMD (s : String) : Option PyDate :=
  match s.toList with
  | [y1, y2, y3, y4, h1, m1, m2, h2, d1, d2] =>
    if y1.isDigit && y2.isDigit && y3.isDigit && y4.isDigit && (h1 == '-') &&
        m1.isDigit && m2.isDigit && (h2 == '-') && d1.isDigit && d2.isDigit then
      let y := ((digitVal y1 * 10 + digitVal y2) * 10 + digitVal y3) * 10 + digitVal y4
      let m := digitVal m1 * 10 + digitVal m2
      let d := digitVal d1 * 10 + digitVal d2
      if 1 ≤ y ∧ 1 ≤ m ∧ m ≤ 12 ∧ 1 ≤ d ∧ d ≤ daysInMonth (Int.ofNat y) m then
        some ⟨Int.ofNat y, m, d⟩
      else none
    else none
  | _ => none

/-- Conversion of one row's `Date` cell by `pd.to_datetime`; an
unparseable or non-string value raises (pandas maps some non-strings to
timestamps instead, but the provider's `datetime` element is always a
date string, so those are conflated into the raised-exception case). -/
def convertRow (r : RawRow) : Except Exc Row :=
  match r.date with
  | .str s =>
    match parseYMD s with
    | some d => .ok ⟨d, r.tempmax, r.tempmin, r.temp, r.conditions, r.precip⟩
    | none => .error (.parseError s)
  | _ => .error (.parseError ("non-string date value"))

/-- `pd.to_datetime(df["Date"])` over the whole column, first failure
aborts. -/
def convertRows : List RawRow → Except Exc (List Row)
  | [] => .ok []
  | r :: rs =>
    match convertRow r with
    | .error e => .error e
    | .ok r2 =>
      match convertRows rs with
      | .error e => .error e
      | .ok rs2 => .ok (r2 :: rs2)

/-- Python `str(v)` of a JSON value, as the f-string on line 58
interpolates `data.get('message', 'Invalid response')`. Only the string
case is exercised by real payloads; the container renderings are
simplified (no claim depends on them). -/
def Json.pyStr : Json → String
  | .null => "None"
  | .boolean true => "True"
  | .boolean false => "False"
  | .num q => toString q
  | .str s => s
  | .arr _ => "[...]"
  | .obj _ => "<dict>"

/-- Lines 57-80 of `main.py`, from a decoded JSON payload onwards:
* `if "days" not in data:` raise `ValueError(f"API Error:
  {data.get('message', 'Invalid response')}")`, which the generic handler
  renders as `f"Unexpected Error: {e}"` and returns `None`;
* otherwise iterate `data["days"]`, building `days_data`;
* `pd.DataFrame([])` has no columns, so on an empty list the subsequent
  `df["Date"]` raises `KeyError('Date')` — the generic handler again;
* otherwise convert the `Date` column and return the table.
A non-dict payload or a non-list `days` value raises a `TypeError` (or,
for a non-dict payload, an `AttributeError` from `.get`) inside the
`try`, landing in the same generic handler; the exact message text there
is not claim-relevant. -/
def fetchFromPayload (data : Json) : ForecastResult :=
  match data with
  | .obj fields =>
    match fields.lookup ("days") with
    | none =>
      let m :=
        match fields.lookup ("message") with
        | some (.str s) => s
        | some v => v.pyStr
        | none => "Invalid response"
      .failure ("Unexpected Error: " ++ ("API Error: " ++ m))
    | some (.arr days) =>
      match buildRows days with
      | .error e => .failure ("Unexpected Error: " ++ e.str)
      | .ok rows =>
        if rows.isEmpty then
          .failure ("Unexpected Error: " ++ (Exc.keyError ("Date")).str)
        else
          match convertRows rows with
          | .error e => .failure ("Unexpected Error: " ++ e.str)
          | .ok finalRows => .success finalRows
    | some _ =>
      .failure ("Unexpected Error: " ++ (Exc.typeError ("days value is not a list")).str)
  | _ =>
    .failure ("Unexpected Error: " ++ (Exc.typeError ("payload is not a dict")).str)

/-- The `requests.exceptions.RequestException` subclasses that the call
`requests.get(url, params=params, timeout=10)` / `raise_for_status()` can
raise: connection-level errors (DNS, connection refused), the bounded
timeout, and `HTTPError` for a 4xx/5xx status. Each carries the cause
text that `str(e)` renders. -/
inductive ReqExc where
  | connectionError (cause : String)
  | timeoutError (cause : String)
  | httpError (status : Nat) (cause : String)

/-- `str(e)` for a request exception, as interpolated into
`f"API Request Failed: {e}. Check city name or API key."`. For
`HTTPError`, `requests` includes the status code in the message. -/
def ReqExc.str : ReqExc → String
  | .connectionError c => c
  | .timeoutError c => c
  | .httpError status c => toString status ++ " " ++ c

/-- The reason phrase `requests` puts into an `HTTPError` message. -/
def statusReason (status : Nat) : String :=
  if status < 500 then "Client Error" else "Server Error"

/-- Outcome of the network round-trip: either `requests.get` raised, or a
response arrived with an HTTP status and a decoded JSON body.
(`requests` follows redirects on GET, so terminal statuses are 2xx or
4xx/5xx; `raise_for_status()` raises exactly for status >= 400.) -/
inductive HttpOutcome where
  | exc (e : ReqExc)
  | resp (status : Nat) (body : Json)

/-- Lines 52-80: the whole `try`/`except` of `fetch_monthly_data` given
the outcome of the network round-trip. A raised `RequestException`
(including the `HTTPError` from `raise_for_status()` on a status >= 400)
is caught by the first handler, which shows
`f"API Request Failed: {e}. Check city name or API key."` and returns
`None`; otherwise the payload is processed by the code modelled in
`fetchFromPayload`. -/
def fetchFromHttp (o : HttpOutcome) : ForecastResult :=
  match o with
  | .exc e => .failure ("API Request Failed: " ++ e.str ++ ". Check city name or API key.")
  | .resp status body =>
    if 400 ≤ status then
      .failure ("API Request Failed: " ++ (ReqExc.httpError status (statusReason status)).str
        ++ ". Check city name or API key.")
    else
      fetchFromPayload body

/-- The single outbound HTTP request of a cache miss, as built on lines
43-53: method, full templated URL, query parameters, timeout. -/
structure HttpRequest where
  method : String
  url : String
  params : List (String × String)
  timeout : Nat

/-- The timeline endpoint prefix from line 43. -/
def vcBaseUrl : String :=
  "https://weather.visualcrossing.com/VisualCrossingWebServices/rest/services/timeline/"

/-- Lines 43-53: the GET request `fetch_monthly_data` issues, templated
by city and the two resolved range date strings, with the five query
parameters and `timeout=10`. `none` when range resolution itself raised. -/
def buildRequest (city : String) (year : Int) (month : Nat) (apiKey : String) :
    Option HttpRequest :=
  (resolveRange year month).map (fun p =>
    { method := "GET"
      url := vcBaseUrl ++ city ++ "/" ++ p.1 ++ "/" ++ p.2
      params := [("key", apiKey), ("include", "days"), ("unitGroup", "metric"),
        ("contentType", "json"),
        ("elements", "datetime,tempmax,tempmin,temp,conditions,precip")]
      timeout := 10 })

/-- The cache key of `st.cache_data`: the argument tuple
`(city, year, month, api_key)` of `fetch_monthly_data`. -/
structure CacheKey where
  city : String
  year : Int
  month : Nat
  apiKey : String
deriving DecidableEq

/-- One memoized entry: key, stored result, and the time it was stored. -/
structure CacheEntry where
  key : CacheKey
  result : ForecastResult
  storedAt : Nat

/-- Modelled from the spec: the memoizing layer that
`@st.cache_data(ttl=3600)` (line 33) wraps around `fetch_monthly_data` —
its implementation lives in the streamlit library, not in this
repository. A lookup hits when an entry with the same key is younger
than the 3600-second time-to-live. -/
def cacheLookup (entries : List CacheEntry) (k : CacheKey) (now : Nat) :
    Option ForecastResult :=
  (entries.find? (fun e => decide (e.key = k) && decide (now - e.storedAt < 3600))).map
    CacheEntry.result

/-- Modelled from the spec: one call of the cached function at time
`now`. A hit returns the stored `ForecastResult` (success or failure
alike) without running the body; a miss runs the body `run` (issuing the
network call), stores the outcome, and returns it. The returned `Bool`
records whether the body ran, i.e. whether a network call was issued. -/
def cachedFetch (entries : List CacheEntry) (k : CacheKey) (now : Nat)
    (run : Unit → ForecastResult) : ForecastResult × List CacheEntry × Bool :=
  match cacheLookup entries k now with
  | some r => (r, entries, false)
  | none =>
    let r := run ()
    (r, ⟨k, r, now⟩ :: entries, true)

/-- Lines 87-117: the fetch-button handler renders the table, metrics and
charts only under `if df is not None and not df.empty:`; a `None`
(failure) or an empty table falls through to `st.stop()` and renders
nothing. -/
def handlerRenders : ForecastResult → Bool
  | .success rows => !rows.isEmpty
  | .failure _ => false

/-- The record the fetch produces for one well-formed provider entry:
the composition of the `days_data` construction and the `Date` column
conversion, `none` when either step raises on this entry. -/
def rowOfDay (day : Json) : Option Row :=
  match buildRow day with
  | .error _ => none
  | .ok raw =>
    match convertRow raw with
    | .error _ => none
    | .ok r => some r

/-- `rowOfDay` over a whole `days` list, `none` as soon as one entry
fails. -/
def rowsOfDays : List Json → Option (List Row)
  | [] => some []
  | d :: ds =>
    match rowOfDay d, rowsOfDays ds with
    | some r, some rs => some (r :: rs)
    | _, _ => none

/-- The provider-supplied date of one entry: its `datetime` string,
parsed. -/
def dateOfDay (day : Json) : Option PyDate :=
  match day.get ("datetime") with
  | some (.str s) => parseYMD s
  | _ => none

/-- `dateOfDay` over a whole `days` list. -/
def datesOfDays : List Json → Option (List PyDate)
  | [] => some []
  | d :: ds =>
    match dateOfDay d, datesOfDays ds with
    | some x, some xs => some (x :: xs)
    | _, _ => none

/-- Chronological order on calendar dates (lexicographic on year, month,
day). -/
def PyDate.leb (a b : PyDate) : Bool :=
  decide (a.year < b.year) ||
    (decide (a.year = b.year) &&
      (decide (a.month < b.month) ||
        (decide (a.month = b.month) && decide (a.day ≤ b.day))))

/-- The five fields whose absence on a provider entry raises a
`KeyError` in the loop body. -/
def requiredKeys : List String :=
  [("datetime"), ("tempmax"), ("tempmin"), ("temp"), ("conditions")]

/-- A fully well-formed provider entry for 2025-11-01. -/
def exDay1 : Json := .obj [(("datetime"), .str ("2025-11-01")), (("tempmax"), .num 30),
  (("tempmin"), .num 22), (("temp"), .num 26), (("conditions"), .str ("Clear")),
  (("precip"), .num 5)]

/-- A fully well-formed provider entry for 2025-11-02. -/
def exDay2 : Json := .obj [(("datetime"), .str ("2025-11-02")), (("tempmax"), .num 31),
  (("tempmin"), .num 23), (("temp"), .num 27), (("conditions"), .str ("Rain")),
  (("precip"), .num 12)]

/-- The row the fetch produces for `exDay1`. -/
def exRow1 : Row := ⟨⟨2025, 11, 1⟩, .num 30, .num 22, .num 26, .str ("Clear"), .num 5⟩

/-- The row the fetch produces for `exDay2`. -/
def exRow2 : Row := ⟨⟨2025, 11, 2⟩, .num 31, .num 23, .num 27, .str ("Rain"), .num 12⟩

/-- A provider entry whose `precip` field is present but null. -/
def exDayNullPrecip : Json := .obj [(("datetime"), .str ("2025-11-01")),
  (("tempmax"), .num 30), (("tempmin"), .num 22), (("temp"), .num 26),
  (("conditions"), .str ("Clear")), (("precip"), .null)]

/-- A provider entry with no `precip` field at all. -/
def exDayNoPrecip : Json := .obj [(("datetime"), .str ("2025-11-03")),
  (("tempmax"), .num 29), (("tempmin"), .num 21), (("temp"), .num 25),
  (("conditions"), .str ("Cloudy"))]

/-- A provider entry missing the required `tempmin` field. -/
def exDayMissingTempmin : Json := .obj [(("datetime"), .str ("2025-11-04")),
  (("tempmax"), .num 28), (("temp"), .num 24), (("conditions"), .str ("Clear")),
  (("precip"), .num 0)]

/-- A payload whose `days` field holds an empty list. -/
def emptyDaysPayload : Json := .obj [(("days"), Json.arr [])]

/-- A concrete cache key. -/
def exKey : CacheKey := ⟨"Chennai", 2025, 11, "k"⟩

lemma daysInMonth_pos (y : Int) (m : Nat) : 1 ≤ daysInMonth y m := by
  unfold daysInMonth
  split
  · split <;> omega
  · split <;> omega

lemma daysInMonth_le (y : Int) (m : Nat) : daysInMonth y m ≤ 31 := by
  unfold daysInMonth
  split
  · split <;> omega
  · split <;> omega

lemma pad2_one : pad2 1 = "01" := rfl

/-- December needs no `datetime` call: the source builds both strings
with pure formatting, so the result holds for every integer year. -/
lemma resolveRange_december (y : Int) :
    resolveRange y 12 = some (fmtDate ⟨y, 12, 1⟩, fmtDate ⟨y, 12, daysInMonth y 12⟩) := by
  have lit1 : ("-" : String) ++ "01" = "-01" := rfl
  have hstart : toString y ++ "-" ++ pad2 12 ++ "-01" = fmtDate ⟨y, 12, 1⟩ := by
    unfold fmtDate
    dsimp only
    rw [pad2_one, String.append_assoc (toString y ++ "-" ++ pad2 12), lit1]
  have hend : toString y ++ "-12-31" = fmtDate ⟨y, 12, daysInMonth y 12⟩ := by
    have lit2 : ("-" : String) ++ ("12" ++ ("-" ++ "31")) = "-12-31" := rfl
    have e1 : toString y ++ "-" ++ "12" ++ "-" ++ "31" =
        toString y ++ ("-" ++ ("12" ++ ("-" ++ "31"))) := by
      rw [String.append_assoc, String.append_assoc, String.append_assoc]
    unfold fmtDate
    dsimp only
    rw [show daysInMonth y 12 = 31 from rfl, show pad2 12 = "12" from rfl,
      show pad2 31 = "31" from rfl, e1, lit2]
  show some (toString y ++ "-" ++ pad2 12 ++ "-01", toString y ++ "-12-31") = _
  rw [hstart, hend]

/-- On its valid input domain, the range resolver yields exactly the
formatted first and last day of the requested month. -/
lemma resolveRange_eq (y : Int) (m : Nat) (hy1 : 1 ≤ y) (hy2 : y ≤ 9999)
    (hm1 : 1 ≤ m) (hm2 : m ≤ 12) :
    resolveRange y m = some (fmtDate ⟨y, m, 1⟩, fmtDate ⟨y, m, daysInMonth y m⟩) := by
  have lit1 : ("-" : String) ++ "01" = "-01" := rfl
  have hstart : toString y ++ "-" ++ pad2 m ++ "-01" = fmtDate ⟨y, m, 1⟩ := by
    unfold fmtDate
    dsimp only
    rw [pad2_one, String.append_assoc (toString y ++ "-" ++ pad2 m), lit1]
  by_cases h12 : m = 12
  · subst h12
    exact resolveRange_december y
  · have hdt : pyDatetime y (m + 1) 1 = some ⟨y, m + 1, 1⟩ := by
      unfold pyDatetime
      rw [if_pos]
      exact ⟨hy1, hy2, by omega, by omega, le_refl 1, daysInMonth_pos y (m + 1)⟩
    have hsub : subOneDay ⟨y, m + 1, 1⟩ = ⟨y, m, daysInMonth y m⟩ := by
      unfold subOneDay
      simp only
      rw [if_neg (by omega), if_pos (by omega)]
      simp
    simp only [resolveRange]
    rw [if_neg h12, hdt]
    dsimp only
    rw [hsub, hstart]

/-- Forward evaluation of the loop body on an entry holding all five
required fields. -/
lemma buildRow_eq_ok (day : Json) (dt tmax tmin t cond : Json)
    (h1 : day.get ("datetime") = some dt) (h2 : day.get ("tempmax") = some tmax)
    (h3 : day.get ("tempmin") = some tmin) (h4 : day.get ("temp") = some t)
    (h5 : day.get ("conditions") = some cond) :
    buildRow day = .ok ⟨dt, tmax, tmin, t, cond, (day.get ("precip")).getD (.num 0)⟩ := by
  simp [buildRow, h1, h2, h3, h4, h5]

/-- Inversion of the loop body: a produced entry pins down all six field
accesses. -/
lemma buildRow_inv (day : Json) (raw : RawRow) (h : buildRow day = .ok raw) :
    day.get ("datetime") = some raw.date ∧ day.get ("tempmax") = some raw.tempmax ∧
    day.get ("tempmin") = some raw.tempmin ∧ day.get ("temp") = some raw.temp ∧
    day.get ("conditions") = some raw.conditions ∧
    raw.precip = (day.get ("precip")).getD (.num 0) := by
  cases h1 : day.get ("datetime") with
  | none => simp [buildRow, h1] at h
  | some dt =>
  cases h2 : day.get ("tempmax") with
  | none => simp [buildRow, h1, h2] at h
  | some tmax =>
  cases h3 : day.get ("tempmin") with
  | none => simp [buildRow, h1, h2, h3] at h
  | some tmin =>
  cases h4 : day.get ("temp") with
  | none => simp [buildRow, h1, h2, h3, h4] at h
  | some t =>
  cases h5 : day.get ("conditions") with
  | none => simp [buildRow, h1, h2, h3, h4, h5] at h
  | some cond =>
    rw [buildRow_eq_ok day dt tmax tmin t cond h1 h2 h3 h4 h5] at h
    injection h with h
    subst h
    refine ⟨?_, ?_, ?_, ?_, ?_, ?_⟩ <;> simp [h1, h2, h3, h4, h5]

/-- The loop body either raises on an entry or all five required fields
are present on it. -/
lemma buildRow_cases (day : Json) :
    (∃ e, buildRow day = .error e) ∨ ∀ k ∈ requiredKeys, (day.get k).isSome = true := by
  cases h1 : day.get ("datetime") with
  | none => exact .inl ⟨.keyError ("datetime"), by simp [buildRow, h1]⟩
  | some dt =>
  cases h2 : day.get ("tempmax") with
  | none => exact .inl ⟨.keyError ("tempmax"), by simp [buildRow, h1, h2]⟩
  | some tmax =>
  cases h3 : day.get ("tempmin") with
  | none => exact .inl ⟨.keyError ("tempmin"), by simp [buildRow, h1, h2, h3]⟩
  | some tmin =>
  cases h4 : day.get ("temp") with
  | none => exact .inl ⟨.keyError ("temp"), by simp [buildRow, h1, h2, h3, h4]⟩
  | some t =>
  cases h5 : day.get ("conditions") with
  | none => exact .inl ⟨.keyError ("conditions"), by simp [buildRow, h1, h2, h3, h4, h5]⟩
  | some cond =>
    right
    intro k hk
    fin_cases hk <;> simp [h1, h2, h3, h4, h5]

/-- An entry with a missing required field makes the loop body raise. -/
lemma buildRow_err (day : Json) (k : String) (hkmem : k ∈ requiredKeys)
    (hnone : day.get k = none) : ∃ e, buildRow day = .error e := by
  rcases buildRow_cases day with h | h
  · exact h
  · have hs := h k hkmem
    rw [hnone] at hs
    simp at hs

/-- A raising entry anywhere in the list makes the whole loop raise. -/
lemma buildRows_error_of_mem (days : List Json) (d : Json) (hd : d ∈ days)
    (e : Exc) (hbad : buildRow d = .error e) :
    ∃ e2, buildRows days = .error e2 := by
  induction days with
  | nil => cases hd
  | cons a as ih =>
    rcases List.mem_cons.mp hd with rfl | hmem
    · exact ⟨e, by simp [buildRows, hbad]⟩
    · cases hb : buildRow a with
      | error e3 => exact ⟨e3, by simp [buildRows, hb]⟩
      | ok r =>
        rcases ih hmem with ⟨e2, he2⟩
        exact ⟨e2, by simp [buildRows, hb, he2]⟩

/-- Inversion of the date-column conversion of one row. -/
lemma convertRow_inv (raw : RawRow) (r : Row) (h : convertRow raw = .ok r) :
    ∃ s, raw.date = .str s ∧ parseYMD s = some r.date ∧
      r = ⟨r.date, raw.tempmax, raw.tempmin, raw.temp, raw.conditions, raw.precip⟩ := by
  cases hd : raw.date with
  | str s =>
    cases hp : parseYMD s with
    | none => simp [convertRow, hd, hp] at h
    | some d =>
      have : convertRow raw = .ok ⟨d, raw.tempmax, raw.tempmin, raw.temp, raw.conditions, raw.precip⟩ := by
        simp [convertRow, hd, hp]
      rw [this] at h
      injection h with h
      subst h
      refine ⟨s, rfl, ?_, ?_⟩ <;> simp [hp]
  | null => simp [convertRow, hd] at h
  | boolean b => simp [convertRow, hd] at h
  | num q => simp [convertRow, hd] at h
  | arr xs => simp [convertRow, hd] at h
  | obj fs => simp [convertRow, hd] at h

/-- Inversion of the per-entry composition `rowOfDay`. -/
lemma rowOfDay_inv (day : Json) (r : Row) (h : rowOfDay day = some r) :
    ∃ raw, buildRow day = .ok raw ∧ convertRow raw = .ok r := by
  cases hb : buildRow day with
  | error e => simp [rowOfDay, hb] at h
  | ok raw =>
    cases hc : convertRow raw with
    | error e => simp [rowOfDay, hb, hc] at h
    | ok r2 =>
      refine ⟨raw, rfl, ?_⟩
      rw [hc]
      simp [rowOfDay, hb, hc] at h
      simp [h]

/-- The provider-supplied date of an entry is the date of its produced
row. -/
lemma rowOfDay_date (day : Json) (r : Row) (h : rowOfDay day = some r) :
    dateOfDay day = some r.date := by
  rcases rowOfDay_inv day r h with ⟨raw, hb, hc⟩
  rcases convertRow_inv raw r hc with ⟨s, hd, hp, _⟩
  have h1 := (buildRow_inv day raw hb).1
  rw [hd] at h1
  simp [dateOfDay, h1, hp]

/-- The precipitation of a produced row is the `day.get("precip", 0)`
default on its entry. -/
lemma rowOfDay_precip (day : Json) (r : Row) (h : rowOfDay day = some r) :
    r.precip = (day.get ("precip")).getD (.num 0) := by
  rcases rowOfDay_inv day r h with ⟨raw, hb, hc⟩
  rcases convertRow_inv raw r hc with ⟨s, _, _, hr⟩
  have hp := (buildRow_inv day raw hb).2.2.2.2.2
  rw [hr]
  exact hp

/-- Decomposition of the fused per-entry processing into the two source
phases: building `days_data`, then converting the `Date` column. -/
lemma rowsOfDays_build (days : List Json) (rows : List Row)
    (h : rowsOfDays days = some rows) :
    ∃ raws, buildRows days = .ok raws ∧ convertRows raws = .ok rows ∧
      raws.length = days.length ∧ rows.length = days.length := by
  induction days generalizing rows with
  | nil =>
    simp [rowsOfDays] at h
    subst h
    exact ⟨[], rfl, rfl, rfl, rfl⟩
  | cons d ds ih =>
    cases hd : rowOfDay d with
    | none => simp [rowsOfDays, hd] at h
    | some r =>
      cases hds : rowsOfDays ds with
      | none => simp [rowsOfDays, hd, hds] at h
      | some rs =>
        have hrows : rows = r :: rs := by
          simp [rowsOfDays, hd, hds] at h
          rw [h]
        subst hrows
        rcases ih rs hds with ⟨raws, hb, hc, hl1, hl2⟩
        rcases rowOfDay_inv d r hd with ⟨raw, hbr, hcr⟩
        refine ⟨raw :: raws, ?_, ?_, ?_, ?_⟩
        · simp [buildRows, hbr, hb]
        · simp [convertRows, hcr, hc]
        · simp [hl1]
        · simp [hl2]

/-- Per-index correspondence between entries and produced rows. -/
lemma rowsOfDays_get (days : List Json) (rows : List Row)
    (h : rowsOfDays days = some rows) (i : Nat) (hi : i < days.length)
    (hi2 : i < rows.length) :
    rowOfDay (days.get ⟨i, hi⟩) = some (rows.get ⟨i, hi2⟩) := by
  induction days generalizing rows i with
  | nil => cases hi
  | cons d ds ih =>
    cases hd : rowOfDay d with
    | none => simp [rowsOfDays, hd] at h
    | some r =>
      cases hds : rowsOfDays ds with
      | none => simp [rowsOfDays, hd, hds] at h
      | some rs =>
        have hrows : rows = r :: rs := by
          simp [rowsOfDays, hd, hds] at h
          rw [h]
        subst hrows
        cases i with
        | zero => simpa using hd
        | succ j =>
          have hj : j < ds.length := by simpa using hi
          have hj2 : j < rs.length := by simpa using hi2
          simpa using ih rs hds j hj hj2

/-- The dates of the produced rows are exactly the parsed provider
dates, in order. -/
lemma rowsOfDays_dates (days : List Json) (rows : List Row)
    (h : rowsOfDays days = some rows) :
    datesOfDays days = some (rows.map Row.date) := by
  induction days generalizing rows with
  | nil =>
    simp [rowsOfDays] at h
    subst h
    rfl
  | cons d ds ih =>
    cases hd : rowOfDay d with
    | none => simp [rowsOfDays, hd] at h
    | some r =>
      cases hds : rowsOfDays ds with
      | none => simp [rowsOfDays, hd, hds] at h
      | some rs =>
        have hrows : rows = r :: rs := by
          simp [rowsOfDays, hd, hds] at h
          rw [h]
        subst hrows
        have hdd := rowOfDay_date d r hd
        simp [datesOfDays, hdd, ih rs hds]

/-- Composition: a payload whose `days` list is nonempty and fully
well-formed produces exactly the fused rows as a success. -/
lemma fetch_success (fields : List (String × Json)) (entries : List Json) (rows : List Row)
    (hdays : fields.lookup ("days") = some (.arr entries))
    (hne : entries ≠ [])
    (hrows : rowsOfDays entries = some rows) :
    fetchFromPayload (.obj fields) = .success rows := by
  rcases rowsOfDays_build entries rows hrows with ⟨raws, hb, hc, hl1, hl2⟩
  have hraws : raws.isEmpty = false := by
    cases raws with
    | nil =>
      cases entries with
      | nil => exact absurd rfl hne
      | cons a as => simp at hl1
    | cons a as => rfl
  simp [fetchFromPayload, hdays, hb, hraws, hc]

/-- C2 counterexample: the claim quantifies over every year, but at
year 10000 and month 2 the range computation calls `datetime(10000, 3,
1)`, which raises `ValueError` (model: `none`) — no range at all is
resolved, in particular not one spanning Feb 1-29. -/
theorem claim_C2_cex :
    resolveRange 10000 2 = none ∧ ∀ p : String × String, resolveRange 10000 2 ≠ some p := by
  refine ⟨by decide, ?_⟩
  intro p h
  rw [show resolveRange 10000 2 = none by decide] at h
  exact Option.noConfusion h

/-- C2 (amended): for every month in 1..12 and every year inside Python
datetime's supported range 1..9999 (for month 12 the program never calls
`datetime` at all), the resolved range starts at day 1 of the month and
ends at its last calendar day, the one computed by stepping one day back
from the first of the next month; in particular February 2024 spans
Feb 1-29 and February 2023 spans Feb 1-28. -/
theorem claim_C2_thm (y : Int) (m : Nat) (hy1 : 1 ≤ y) (hy2 : y ≤ 9999)
    (hm1 : 1 ≤ m) (hm2 : m ≤ 12) :
    resolveRange y m = some (fmtDate ⟨y, m, 1⟩, fmtDate ⟨y, m, daysInMonth y m⟩) ∧
    (∀ y2 : Int, resolveRange y2 12 =
      some (fmtDate ⟨y2, 12, 1⟩, fmtDate ⟨y2, 12, daysInMonth y2 12⟩)) ∧
    daysInMonth 2024 2 = 29 ∧ daysInMonth 2023 2 = 28 ∧
    resolveRange 2024 2 = some (("2024-02-01"), ("2024-02-29")) ∧
    resolveRange 2023 2 = some (("2023-02-01"), ("2023-02-28")) :=
  ⟨resolveRange_eq y m hy1 hy2 hm1 hm2, resolveRange_december,
    by decide, by decide, by decide, by decide⟩

/-- C2 witness: the amended claim instantiated at November 2025. -/
theorem claim_C2_witness :
    resolveRange 2025 11 = some (fmtDate ⟨2025, 11, 1⟩, fmtDate ⟨2025, 11, daysInMonth 2025 11⟩) ∧
    (∀ y2 : Int, resolveRange y2 12 =
      some (fmtDate ⟨y2, 12, 1⟩, fmtDate ⟨y2, 12, daysInMonth y2 12⟩)) ∧
    daysInMonth 2024 2 = 29 ∧ daysInMonth 2023 2 = 28 ∧
    resolveRange 2024 2 = some (("2024-02-01"), ("2024-02-29")) ∧
    resolveRange 2023 2 = some (("2023-02-01"), ("2023-02-28")) :=
  claim_C2_thm 2025 11 (by decide) (by decide) (by decide) (by decide)

/-- C9 counterexample: the claim asserts no error conditions for every
integer year, but at year 0 and month 5 the range computation calls
`datetime(0, 6, 1)`, which raises `ValueError` (model: `none`). -/
theorem claim_C9_cex :
    resolveRange 0 5 = none ∧ ∀ p : String × String, resolveRange 0 5 ≠ some p := by
  refine ⟨by decide, ?_⟩
  intro p h
  rw [show resolveRange 0 5 = none by decide] at h
  exact Option.noConfusion h

/-- C9 (amended): range resolution is embedded as a pure function with
no side effects; it is total and error-free for every month in 1..12
provided the year lies in Python datetime's supported range 1..9999, and
for month 12 (where no `datetime` is constructed) for every integer
year. Outside that range, months 1..11 raise `ValueError` — the
component itself enforces no bounds, but its `datetime` calls do. -/
theorem claim_C9_thm (y : Int) (m : Nat) (hm1 : 1 ≤ m) (hm2 : m ≤ 12) :
    (1 ≤ y → y ≤ 9999 → (resolveRange y m).isSome = true) ∧
    (resolveRange y 12).isSome = true := by
  constructor
  · intro hy1 hy2
    rw [resolveRange_eq y m hy1 hy2 hm1 hm2]
    rfl
  · simp [resolveRange]

/-- C9 witness: the amended claim instantiated at year 2026, month 7. -/
theorem claim_C9_witness :
    (1 ≤ (2026 : Int) → (2026 : Int) ≤ 9999 → (resolveRange 2026 7).isSome = true) ∧
    (resolveRange 2026 12).isSome = true :=
  claim_C9_thm 2026 7 (by decide) (by decide)

/-- C3: a payload whose `days` list contains an entry missing any of the
five required fields makes the whole fetch fail with an error message —
no success (hence no records, partial or otherwise) is ever produced,
and no entry is skipped per-row. -/
theorem claim_C3_thm (fields : List (String × Json)) (entries : List Json)
    (hdays : fields.lookup ("days") = some (.arr entries))
    (hmiss : ∃ day ∈ entries, ∃ k ∈ requiredKeys, day.get k = none) :
    (∃ msg, fetchFromPayload (.obj fields) = .failure msg) ∧
    ∀ rows, fetchFromPayload (.obj fields) ≠ .success rows := by
  rcases hmiss with ⟨day, hdmem, k, hkmem, hnone⟩
  rcases buildRow_err day k hkmem hnone with ⟨e, he⟩
  rcases buildRows_error_of_mem entries day hdmem e he with ⟨e2, he2⟩
  constructor
  · exact ⟨"Unexpected Error: " ++ e2.str, by simp [fetchFromPayload, hdays, he2]⟩
  · intro rows h
    simp [fetchFromPayload, hdays, he2] at h

/-- C3 witness: a two-entry payload whose second entry lacks `tempmin`
fails as a whole. -/
theorem claim_C3_witness :
    (∃ msg, fetchFromPayload (.obj [(("days"), Json.arr [exDay1, exDayMissingTempmin])]) =
      .failure msg) ∧
    ∀ rows, fetchFromPayload (.obj [(("days"), Json.arr [exDay1, exDayMissingTempmin])]) ≠
      .success rows :=
  claim_C3_thm [(("days"), Json.arr [exDay1, exDayMissingTempmin])] [exDay1, exDayMissingTempmin]
    rfl ⟨exDayMissingTempmin, by simp, ("tempmin"), by simp [requiredKeys], rfl⟩

/-- C5: a payload (a JSON object, as the provider returns) without a
top-level `days` field yields a failure — never a success — whose
message carries the payload's own `message` text when that field holds a
string, and the generic `Invalid response` description when the field is
absent. -/
theorem claim_C5_thm (fields : List (String × Json))
    (hnodays : fields.lookup ("days") = none) :
    (∀ m, fields.lookup ("message") = some (.str m) →
        fetchFromPayload (.obj fields) =
          .failure ("Unexpected Error: " ++ ("API Error: " ++ m))) ∧
    (fields.lookup ("message") = none →
        fetchFromPayload (.obj fields) =
          .failure ("Unexpected Error: " ++ ("API Error: " ++ "Invalid response"))) ∧
    (∀ rows, fetchFromPayload (.obj fields) ≠ .success rows) := by
  refine ⟨?_, ?_, ?_⟩
  · intro m hm
    simp [fetchFromPayload, hnodays, hm]
  · intro hm
    simp [fetchFromPayload, hnodays, hm]
    rfl
  · intro rows h
    rcases hm : fields.lookup ("message") with _ | v
    · simp [fetchFromPayload, hnodays, hm] at h
    · cases v <;> simp [fetchFromPayload, hnodays, hm] at h

/-- C5 witness: a `days`-less payload carrying a provider message. -/
theorem claim_C5_witness :
    (∀ m, ([(("message"), Json.str ("Invalid location"))] : List (String × Json)).lookup
        ("message") = some (.str m) →
      fetchFromPayload (.obj [(("message"), Json.str ("Invalid location"))]) =
        .failure ("Unexpected Error: " ++ ("API Error: " ++ m))) ∧
    (([(("message"), Json.str ("Invalid location"))] : List (String × Json)).lookup
        ("message") = none →
      fetchFromPayload (.obj [(("message"), Json.str ("Invalid location"))]) =
        .failure ("Unexpected Error: " ++ ("API Error: " ++ "Invalid response"))) ∧
    (∀ rows, fetchFromPayload (.obj [(("message"), Json.str ("Invalid location"))]) ≠
      .success rows) :=
  claim_C5_thm [(("message"), Json.str ("Invalid location"))] rfl

/-- C6: every transport-level failure the request code distinguishes — a
raised connection error (DNS, refused), a timeout, or the `HTTPError`
that `raise_for_status()` raises on a status of 400 or above — makes the
fetch return a failure whose user-visible message embeds the underlying
cause, and never any data. -/
theorem claim_C6_thm :
    (∀ e : ReqExc,
        fetchFromHttp (.exc e) =
          .failure ("API Request Failed: " ++ e.str ++ ". Check city name or API key.") ∧
        (∃ pre post, "API Request Failed: " ++ e.str ++ ". Check city name or API key." =
          pre ++ e.str ++ post) ∧
        ∀ rows, fetchFromHttp (.exc e) ≠ .success rows) ∧
    (∀ (status : Nat) (body : Json), 400 ≤ status →
        fetchFromHttp (.resp status body) =
          .failure ("API Request Failed: " ++
            (ReqExc.httpError status (statusReason status)).str ++
            ". Check city name or API key.") ∧
        (∃ post, (ReqExc.httpError status (statusReason status)).str =
          toString status ++ post) ∧
        ∀ rows, fetchFromHttp (.resp status body) ≠ .success rows) := by
  constructor
  · intro e
    refine ⟨rfl, ⟨"API Request Failed: ", ". Check city name or API key.", rfl⟩, ?_⟩
    intro rows h
    simp [fetchFromHttp] at h
  · intro status body hs
    refine ⟨by simp [fetchFromHttp, hs], ?_, ?_⟩
    · exact ⟨" " ++ statusReason status, String.append_assoc _ _ _⟩
    · intro rows h
      simp [fetchFromHttp, hs] at h

/-- C6 witness: the theorem instantiated at a concrete timeout and at a
404 response. -/
theorem claim_C6_witness :
    (fetchFromHttp (.exc (.timeoutError ("read timed out"))) =
        .failure ("API Request Failed: " ++ (ReqExc.timeoutError ("read timed out")).str ++
          ". Check city name or API key.") ∧
      (∃ pre post, "API Request Failed: " ++ (ReqExc.timeoutError ("read timed out")).str ++
        ". Check city name or API key." = pre ++ (ReqExc.timeoutError ("read timed out")).str ++ post) ∧
      ∀ rows, fetchFromHttp (.exc (.timeoutError ("read timed out"))) ≠ .success rows) ∧
    (fetchFromHttp (.resp 404 (.obj [])) =
        .failure ("API Request Failed: " ++
          (ReqExc.httpError 404 (statusReason 404)).str ++ ". Check city name or API key.") ∧
      (∃ post, (ReqExc.httpError 404 (statusReason 404)).str = toString 404 ++ post) ∧
      ∀ rows, fetchFromHttp (.resp 404 (.obj [])) ≠ .success rows) :=
  ⟨claim_C6_thm.1 (.timeoutError ("read timed out")), claim_C6_thm.2 404 (.obj []) (by decide)⟩

/-- C7 counterexample: the claim quantifies over every well-formed
payload, but at a payload whose `days` list is empty (every one of its
zero entries vacuously well-formed) the fetch produces no successful
result at all — the empty table has no `Date` column, so the conversion
step raises — whereas the claim would require a success with one record
per entry, i.e. an empty success. -/
theorem claim_C7_cex :
    rowsOfDays ([] : List Json) = some [] ∧
    ([(("days"), Json.arr [])] : List (String × Json)).lookup ("days") = some (.arr []) ∧
    ∀ rows, fetchFromPayload (.obj [(("days"), Json.arr [])]) ≠ .success rows := by
  refine ⟨rfl, rfl, ?_⟩
  intro rows h
  rw [show fetchFromPayload (.obj [(("days"), Json.arr [])]) =
    .failure ("Unexpected Error: " ++ (Exc.keyError ("Date")).str) from rfl] at h
  exact ForecastResult.noConfusion h

/-- C7 (amended): for every payload whose `days` list is nonempty and
fully well-formed, the fetch succeeds with exactly one record per entry,
in the order received (never re-sorted), each entry's date string parsed
into a calendar date; the record dates are exactly the provider's dates,
so when the provider returns ascending dates the records are in
ascending date order. (With an empty `days` list the fetch fails instead
of returning an empty success.) -/
theorem claim_C7_thm (fields : List (String × Json)) (entries : List Json) (rows : List Row)
    (hdays : fields.lookup ("days") = some (.arr entries))
    (hne : entries ≠ [])
    (hrows : rowsOfDays entries = some rows) :
    fetchFromPayload (.obj fields) = .success rows ∧
    rows.length = entries.length ∧
    (∀ (i : Nat) (hi : i < entries.length) (hi2 : i < rows.length),
        rowOfDay (entries.get ⟨i, hi⟩) = some (rows.get ⟨i, hi2⟩)) ∧
    datesOfDays entries = some (rows.map Row.date) ∧
    (∀ ds, datesOfDays entries = some ds →
        List.Chain' (fun a b => PyDate.leb a b = true) ds →
        List.Chain' (fun a b => PyDate.leb a b = true) (rows.map Row.date)) := by
  obtain ⟨raws, _, _, _, hlen⟩ := rowsOfDays_build entries rows hrows
  refine ⟨fetch_success fields entries rows hdays hne hrows, hlen,
    rowsOfDays_get entries rows hrows, rowsOfDays_dates entries rows hrows, ?_⟩
  intro ds hds hchain
  have hd2 := rowsOfDays_dates entries rows hrows
  rw [hds] at hd2
  injection hd2 with hd2
  rw [← hd2]
  exact hchain

/-- C7 witness: the amended claim at a concrete two-entry payload with
ascending dates. -/
theorem claim_C7_witness :
    fetchFromPayload (.obj [(("days"), Json.arr [exDay1, exDay2])]) =
      .success [exRow1, exRow2] ∧
    ([exRow1, exRow2] : List Row).length = ([exDay1, exDay2] : List Json).length ∧
    (∀ (i : Nat) (hi : i < ([exDay1, exDay2] : List Json).length)
        (hi2 : i < ([exRow1, exRow2] : List Row).length),
        rowOfDay (([exDay1, exDay2] : List Json).get ⟨i, hi⟩) =
          some (([exRow1, exRow2] : List Row).get ⟨i, hi2⟩)) ∧
    datesOfDays [exDay1, exDay2] = some (([exRow1, exRow2] : List Row).map Row.date) ∧
    (∀ ds, datesOfDays [exDay1, exDay2] = some ds →
        List.Chain' (fun a b => PyDate.leb a b = true) ds →
        List.Chain' (fun a b => PyDate.leb a b = true)
          (([exRow1, exRow2] : List Row).map Row.date)) :=
  claim_C7_thm [(("days"), Json.arr [exDay1, exDay2])] [exDay1, exDay2] [exRow1, exRow2]
    rfl (by simp) rfl

/-- C1 counterexample: on an entry whose `precip` field is present but
null, the produced record's precipitation is the null itself (Python's
`dict.get` only substitutes the default `0` for an absent key), not `0`
as the claim states — while the fetch still succeeds. -/
theorem claim_C1_cex :
    fetchFromPayload (.obj [(("days"), Json.arr [exDayNullPrecip])]) =
      .success [⟨⟨2025, 11, 1⟩, .num 30, .num 22, .num 26, .str ("Clear"), .null⟩] ∧
    Json.null ≠ Json.num 0 := by
  refine ⟨rfl, ?_⟩
  intro h
  exact Json.noConfusion h

/-- C1 (amended): in a successful fetch, each record's precipitation is
`day.get("precip", 0)` of its entry: the entry's `precip` value whenever
the key is present — a null value included, carried through unchanged —
and `0` exactly when the key is absent; neither case fails the whole
fetch. -/
theorem claim_C1_thm (fields : List (String × Json)) (entries : List Json) (rows : List Row)
    (hdays : fields.lookup ("days") = some (.arr entries))
    (hne : entries ≠ [])
    (hrows : rowsOfDays entries = some rows) :
    fetchFromPayload (.obj fields) = .success rows ∧
    (∀ (i : Nat) (hi : i < entries.length) (hi2 : i < rows.length),
      (rows.get ⟨i, hi2⟩).precip = ((entries.get ⟨i, hi⟩).get ("precip")).getD (.num 0) ∧
      ((entries.get ⟨i, hi⟩).get ("precip") = none → (rows.get ⟨i, hi2⟩).precip = .num 0) ∧
      (∀ v, (entries.get ⟨i, hi⟩).get ("precip") = some v →
        (rows.get ⟨i, hi2⟩).precip = v)) := by
  refine ⟨fetch_success fields entries rows hdays hne hrows, ?_⟩
  intro i hi hi2
  have hr := rowsOfDays_get entries rows hrows i hi hi2
  have hp := rowOfDay_precip _ _ hr
  refine ⟨hp, ?_, ?_⟩
  · intro hnone
    rw [hp, hnone]
    rfl
  · intro v hv
    rw [hp, hv]
    rfl

/-- C1 witness: the amended claim at a payload whose first entry lacks
`precip` (record precipitation 0) and whose second entry carries
`precip` 5. -/
theorem claim_C1_witness :
    fetchFromPayload (.obj [(("days"), Json.arr [exDayNoPrecip, exDay1])]) =
      .success [⟨⟨2025, 11, 3⟩, .num 29, .num 21, .num 25, .str ("Cloudy"), .num 0⟩, exRow1] ∧
    (∀ (i : Nat) (hi : i < ([exDayNoPrecip, exDay1] : List Json).length)
        (hi2 : i < ([⟨⟨2025, 11, 3⟩, .num 29, .num 21, .num 25, .str ("Cloudy"), .num 0⟩,
          exRow1] : List Row).length),
      (([⟨⟨2025, 11, 3⟩, .num 29, .num 21, .num 25, .str ("Cloudy"), .num 0⟩,
          exRow1] : List Row).get ⟨i, hi2⟩).precip =
        ((([exDayNoPrecip, exDay1] : List Json).get ⟨i, hi⟩).get ("precip")).getD (.num 0) ∧
      ((([exDayNoPrecip, exDay1] : List Json).get ⟨i, hi⟩).get ("precip") = none →
        (([⟨⟨2025, 11, 3⟩, .num 29, .num 21, .num 25, .str ("Cloudy"), .num 0⟩,
          exRow1] : List Row).get ⟨i, hi2⟩).precip = .num 0) ∧
      (∀ v, (([exDayNoPrecip, exDay1] : List Json).get ⟨i, hi⟩).get ("precip") = some v →
        (([⟨⟨2025, 11, 3⟩, .num 29, .num 21, .num 25, .str ("Cloudy"), .num 0⟩,
          exRow1] : List Row).get ⟨i, hi2⟩).precip = v)) :=
  claim_C1_thm [(("days"), Json.arr [exDayNoPrecip, exDay1])] [exDayNoPrecip, exDay1]
    [⟨⟨2025, 11, 3⟩, .num 29, .num 21, .num 25, .str ("Cloudy"), .num 0⟩, exRow1]
    rfl (by simp) rfl

/-- C10 counterexample: with `days` an empty list the fetch does not
return an empty success — `pd.DataFrame([])` has no columns, so
`df["Date"]` raises `KeyError('Date')` and the fetch returns the failure
`Unexpected Error: 'Date'`. -/
theorem claim_C10_cex :
    fetchFromPayload emptyDaysPayload =
      .failure ("Unexpected Error: " ++ (Exc.keyError ("Date")).str) ∧
    ∀ rows, fetchFromPayload emptyDaysPayload ≠ .success rows := by
  refine ⟨rfl, ?_⟩
  intro rows h
  rw [show fetchFromPayload emptyDaysPayload =
    .failure ("Unexpected Error: " ++ (Exc.keyError ("Date")).str) from rfl] at h
  exact ForecastResult.noConfusion h

/-- C10 (amended): with `days` an empty list the fetch returns a failure
(the unexpected-error path, message `Unexpected Error: 'Date'`, from the
missing `Date` column of the empty table), not an empty success; the
button handler renders nothing for it, exactly as it does for every
failure. -/
theorem claim_C10_thm :
    fetchFromPayload emptyDaysPayload =
      .failure ("Unexpected Error: " ++ (Exc.keyError ("Date")).str) ∧
    handlerRenders (fetchFromPayload emptyDaysPayload) = false ∧
    (∀ msg, handlerRenders (.failure msg) = false) :=
  ⟨rfl, rfl, fun _ => rfl⟩

lemma toString_year_len (y : Int) (h1 : 2020 ≤ y) (h2 : y ≤ 2030) :
    (toString y).length = 4 := by
  interval_cases y <;> rfl

lemma pad2_len (n : Nat) (h : n ≤ 31) : (pad2 n).length = 2 := by
  interval_cases n <;> rfl

/-- C8: for the year range the year input widget admits (2020..2030) and
any month 1..12, the fetch builds exactly the GET request to the
timeline endpoint templated by city and the two range dates, with
exactly the five query parameters of the source and a timeout of 10; the
two dates are the formatted first and last day of the month, each ten
characters (`YYYY-MM-DD`). -/
theorem claim_C8_thm (city apiKey : String) (y : Int) (m : Nat)
    (hy1 : 2020 ≤ y) (hy2 : y ≤ 2030) (hm1 : 1 ≤ m) (hm2 : m ≤ 12) :
    buildRequest city y m apiKey = some
      { method := "GET"
        url := vcBaseUrl ++ city ++ "/" ++ fmtDate ⟨y, m, 1⟩ ++ "/" ++
          fmtDate ⟨y, m, daysInMonth y m⟩
        params := [(("key"), apiKey), (("include"), ("days")), (("unitGroup"), ("metric")),
          (("contentType"), ("json")),
          (("elements"), ("datetime,tempmax,tempmin,temp,conditions,precip"))]
        timeout := 10 } ∧
    (fmtDate ⟨y, m, 1⟩).length = 10 ∧ (fmtDate ⟨y, m, daysInMonth y m⟩).length = 10 := by
  have hr := resolveRange_eq y m (by omega) (by omega) hm1 hm2
  have hty := toString_year_len y hy1 hy2
  have hp1 : (pad2 m).length = 2 := pad2_len m (by omega)
  have hp2 : (pad2 1).length = 2 := rfl
  have hp3 : (pad2 (daysInMonth y m)).length = 2 := pad2_len _ (daysInMonth_le y m)
  have hdash : ("-" : String).length = 1 := rfl
  refine ⟨?_, ?_, ?_⟩
  · unfold buildRequest
    rw [hr]
    rfl
  · simp [fmtDate, String.length_append, hty, hp1, hp2, hdash]
  · simp [fmtDate, String.length_append, hty, hp1, hp3, hdash]

/-- C8 witness: the request for Chennai, November 2025. -/
theorem claim_C8_witness :
    buildRequest ("Chennai") 2025 11 ("k") = some
      { method := "GET"
        url := vcBaseUrl ++ "Chennai" ++ "/" ++ fmtDate ⟨2025, 11, 1⟩ ++ "/" ++
          fmtDate ⟨2025, 11, daysInMonth 2025 11⟩
        params := [(("key"), ("k")), (("include"), ("days")), (("unitGroup"), ("metric")),
          (("contentType"), ("json")),
          (("elements"), ("datetime,tempmax,tempmin,temp,conditions,precip"))]
        timeout := 10 } ∧
    (fmtDate ⟨2025, 11, 1⟩).length = 10 ∧ (fmtDate ⟨2025, 11, daysInMonth 2025 11⟩).length = 10 :=
  claim_C8_thm ("Chennai") ("k") 2025 11 (by decide) (by decide) (by decide) (by decide)

/-- C4 (spec-modelled cache): starting from an empty cache, a first call
at `t0` runs the body (one network call) and stores its result `r1` —
success or failure alike; a second call with the identical key within
the TTL window returns the stored `r1` without running the body (so the
two calls issue at most one network call); a further call once the TTL
has expired runs the body again (a new network call). -/
theorem claim_C4_thm (k : CacheKey) (t0 t1 t2 : Nat) (r1 : ForecastResult)
    (run2 run3 : Unit → ForecastResult)
    (h1 : t1 - t0 < 3600) (h2 : 3600 ≤ t2 - t0) :
    cachedFetch [] k t0 (fun _ => r1) = (r1, [⟨k, r1, t0⟩], true) ∧
    cachedFetch [⟨k, r1, t0⟩] k t1 run2 = (r1, [⟨k, r1, t0⟩], false) ∧
    cachedFetch [⟨k, r1, t0⟩] k t2 run3 =
      (run3 (), ⟨k, run3 (), t2⟩ :: [⟨k, r1, t0⟩], true) := by
  refine ⟨rfl, ?_, ?_⟩
  · simp [cachedFetch, cacheLookup, List.find?, h1]
  · have hn : ¬ (t2 - t0 < 3600) := by omega
    simp [cachedFetch, cacheLookup, List.find?, hn]

/-- C4 witness: a failure outcome cached at time 0 is served from the
cache at time 10 without a network call; at time 3600 the TTL has
expired and the body runs again. -/
theorem claim_C4_witness :
    cachedFetch [] exKey 0 (fun _ => .failure ("boom")) =
      (.failure ("boom"), [⟨exKey, .failure ("boom"), 0⟩], true) ∧
    cachedFetch [⟨exKey, .failure ("boom"), 0⟩] exKey 10 (fun _ => .success [exRow1]) =
      (.failure ("boom"), [⟨exKey, .failure ("boom"), 0⟩], false) ∧
    cachedFetch [⟨exKey, .failure ("boom"), 0⟩] exKey 3600 (fun _ => .success [exRow1]) =
      ((fun _ : Unit => ForecastResult.success [exRow1]) (),
        ⟨exKey, (fun _ : Unit => ForecastResult.success [exRow1]) (), 3600⟩ ::
          [⟨exKey, .failure ("boom"), 0⟩], true) :=
  claim_C4_thm exKey 0 10 3600 (.failure ("boom")) (fun _ => .success [exRow1])
    (fun _ => .success [exRow1]) (by decide) (by decide)

end Forecasting
